import Mathlib

/-!
Verification development for the AIPSHS sleep-hygiene backend (`app.py`).

The definitions below are a shallow embedding of the two components the
specification documents: the profile evaluator
(`calculate_sleep_metrics`, `calculate_circadian_alignment`,
`generate_ai_recommendations`, `calculate_time_offset`,
`analyze_sleep_profile`) and the filtered-insights aggregator
(`get_personalized_insights`, `generate_recommendations`).

Modelling conventions:
- Python numbers are modelled by `Int` where the code manipulates parsed
  hours/minutes and by `ℚ` where the code performs division or mixes the
  JSON-supplied `sleepGoal` with computed values.  The `[0,100]`-bound and
  equality claims proved here are exact in `ℚ` and are insensitive to
  binary floating-point representation.
- Python exceptions (`ValueError`, `IndexError`, `ZeroDivisionError`) are
  modelled by `Except String` with the exception name as the message; the
  Flask route catch-all that turns any exception into a
  `{success: false, error}` body with HTTP status 500 is modelled by
  `Except (Nat × String)` carrying the status code.
- `int(...)` on a string is modelled by `pyInt` (optional surrounding
  whitespace, optional sign, decimal digits; underscore digit grouping is
  not modelled, no claim depends on it).
- `str.split(':')` is modelled by `pySplitColon`, `str.lower()` by
  `pyLower`, f-string `{n:02d}` by `format02d`, built-in `min`/`max` by
  `pyMinQ`/`pyMaxQ`/`pyMaxI` (first argument wins ties, as in Python), and
  built-in `round` (banker\x27s rounding, half to even) by `pyRound`.
-/

/-- Python `str.split(sep)` for a one-character separator, on char lists:
splitting never yields an empty list, adjacent separators yield empty
chunks. -/
def pySplitChar (sep : Char) : List Char → List (List Char)
  | [] => [[]]
  | c :: cs =>
    if c = sep then [] :: pySplitChar sep cs
    else
      match pySplitChar sep cs with
      | [] => [[c]]
      | h :: t => (c :: h) :: t

/-- Python `s.split(':')` as used throughout `app.py`. -/
def pySplitColon (s : String) : List String :=
  (pySplitChar ':' s.toList).map (fun cs => String.mk cs)

/-- Accumulator loop for `pyInt`: consumes decimal digits, `none` on any
non-digit character. -/
def parseDigitsAux : List Char → Nat → Option Nat
  | [], acc => some acc
  | c :: cs, acc =>
    if c.isDigit then parseDigitsAux cs (10 * acc + (c.toNat - 48)) else none

/-- Python `int(s)` on a string: optional surrounding whitespace, optional
single sign, then a nonempty run of decimal digits; raises `ValueError`
(here: `none`) otherwise. -/
def pyInt (s : String) : Option Int :=
  let cs := s.toList.dropWhile Char.isWhitespace
  let cs := (cs.reverse.dropWhile Char.isWhitespace).reverse
  match cs with
  | [] => none
  | '-' :: rest =>
    match rest with
    | [] => none
    | _ :: _ => (parseDigitsAux rest 0).map (fun n => -(n : Int))
  | '+' :: rest =>
    match rest with
    | [] => none
    | _ :: _ => (parseDigitsAux rest 0).map (fun n => (n : Int))
  | _ => (parseDigitsAux cs 0).map (fun n => (n : Int))

/-- Python `str.lower()`, character by character (ASCII case folding
suffices for the data used here). -/
def pyLower (s : String) : String := String.mk (s.toList.map Char.toLower)

/-- Decimal digits of `n`, most significant first; fuel-based so that it
is structurally recursive (fuel `n + 1` always suffices). -/
def natDigits : Nat → Nat → List Char
  | 0, _ => []
  | fuel + 1, n =>
    if n < 10 then [Char.ofNat (48 + n)]
    else natDigits fuel (n / 10) ++ [Char.ofNat (48 + n % 10)]

/-- Decimal representation of a natural number. -/
def natRepr (n : Nat) : String := String.mk (natDigits (n + 1) n)

/-- Python f-string `{n:02d}`: pad with a leading zero to width 2; the
sign counts toward the width, so `-1` prints as `-1`. -/
def format02d (n : Int) : String :=
  if n < 0 then "-" ++ natRepr n.natAbs
  else if n.natAbs < 10 then "0" ++ natRepr n.natAbs
  else natRepr n.natAbs

/-- Python `min(a, b)` on numbers (returns the first argument on ties). -/
def pyMinQ (a b : ℚ) : ℚ := if a ≤ b then a else b

/-- Python `max(a, b)` on numbers (returns the second argument only when
it is strictly larger). -/
def pyMaxQ (a b : ℚ) : ℚ := if a < b then b else a

/-- Python `max(a, b)` on integers. -/
def pyMaxI (a b : Int) : Int := if a < b then b else a

/-- Python `round(q)`: round half to even (banker\x27s rounding).  The
arguments produced by the code are exact halves, for which float
`round` agrees with this rational model. -/
def pyRound (q : ℚ) : Int :=
  if q - Int.floor q < 1 / 2 then Int.floor q
  else if 1 / 2 < q - Int.floor q then Int.floor q + 1
  else if Int.floor q % 2 = 0 then Int.floor q else Int.floor q + 1

/-- Python `round(q, 2)` used for the insight means (two decimal
places). -/
def pyRound2 (q : ℚ) : ℚ := (pyRound (q * 100) : ℚ) / 100

/-- `pandas` column mean (callers only apply it to nonempty frames; the
NaN-on-empty behaviour is not modelled). -/
def listMean (xs : List ℚ) : ℚ := xs.sum / (xs.length : ℚ)

/-- A client-fault (validation) HTTP status, i.e. a 4xx code. -/
def isClientFault (status : Nat) : Prop := 400 ≤ status ∧ status < 500

/-! ## Data model -/

/-- `SleepProfile` as extracted by the `/api/sleep-profile` route after
defaulting (`app.py` lines 182-188); `lifestyle` is carried but never
read by any computation. -/
structure SleepProfile where
  bedtime : String
  wakeTime : String
  sleepGoal : ℚ
  lifestyle : String
  sleepIssues : List String
deriving DecidableEq

/-- The metrics dictionary returned by `calculate_sleep_metrics`
(`app.py` lines 228-233). -/
structure SleepMetrics where
  sleep_duration : Int
  sleep_debt : ℚ
  sleep_efficiency : ℚ
  circadian_alignment : Int
deriving DecidableEq

/-- One recommendation dictionary from `generate_ai_recommendations`. -/
structure Recommendation where
  id : String
  title : String
  description : String
  time : String
  priority : String
  category : String
deriving DecidableEq

/-- The success payload of the `/api/sleep-profile` route. -/
structure ProfileResponse where
  profile : SleepProfile
  analysis : SleepMetrics
  recommendations : List Recommendation
deriving DecidableEq

/-- One row of the sleep CSV, with the columns the aggregator reads. -/
structure SleepRecord where
  totalSleepHours : ℚ
  sleepQuality : ℚ
  productivityScore : ℚ
  moodScore : ℚ
  stressLevel : ℚ
  gender : String
  age : Int
deriving DecidableEq

/-- The `insights` payload of `/api/sleep-insights/<age>/<gender>`
(`app.py` lines 115-123). -/
structure SleepInsights where
  average_sleep_hours : ℚ
  average_sleep_quality : ℚ
  average_productivity : ℚ
  average_mood : ℚ
  average_stress : ℚ
  sample_size : Nat
  recommendations : List String
deriving DecidableEq

/-! ## Profile evaluator (`app.py` lines 209-311) -/

/-- `int(s.split(':')[0])` (`app.py` lines 216-217): the hour field of a
time string; `none` models the `ValueError`. -/
def parseHourField (s : String) : Option Int :=
  pyInt ((pySplitColon s).headD "")

/-- `calculate_circadian_alignment` (`app.py` lines 235-244). -/
def calculate_circadian_alignment (bedtime_hour wake_hour : Int) : Int :=
  let optimal_bedtime : Int := 22
  let optimal_wake : Int := 6
  let bedtime_score := pyMaxI 0 (100 - ((bedtime_hour - optimal_bedtime).natAbs : Int) * 10)
  let wake_score := pyMaxI 0 (100 - ((wake_hour - optimal_wake).natAbs : Int) * 10)
  pyRound (((bedtime_score + wake_score : Int) : ℚ) / 2)

/-- `calculate_sleep_metrics` (`app.py` lines 209-233).  Raises
`ValueError` when an hour field does not parse and `ZeroDivisionError`
when `sleepGoal` is zero (the efficiency division). -/
def calculate_sleep_metrics (profile : SleepProfile) : Except String SleepMetrics :=
  match parseHourField profile.bedtime with
  | none => Except.error "ValueError"
  | some bedtime_hour =>
    match parseHourField profile.wakeTime with
    | none => Except.error "ValueError"
    | some wake_hour =>
      let sleep_duration : Int :=
        if wake_hour < bedtime_hour then (24 - bedtime_hour) + wake_hour
        else wake_hour - bedtime_hour
      let sleep_debt := pyMaxQ 0 (profile.sleepGoal - (sleep_duration : ℚ))
      if profile.sleepGoal = 0 then Except.error "ZeroDivisionError"
      else
        Except.ok
          { sleep_duration := sleep_duration
            sleep_debt := sleep_debt
            sleep_efficiency := pyMinQ 100 ((sleep_duration : ℚ) / profile.sleepGoal * 100)
            circadian_alignment := calculate_circadian_alignment bedtime_hour wake_hour }

/-- `calculate_time_offset` (`app.py` lines 292-311).  The two `while`
loops normalize the offset hour to its representative modulo 24 before
the single-step minute carry runs; `IndexError` models `split(':')[1]`
on a string without a colon. -/
def calculate_time_offset (base_time : String) (hour_offset minute_offset : Int) :
    Except String String :=
  match parseHourField base_time with
  | none => Except.error "ValueError"
  | some h =>
    match (pySplitColon base_time)[1]? with
    | none => Except.error "IndexError"
    | some minute_str =>
      match pyInt minute_str with
      | none => Except.error "ValueError"
      | some m =>
        let hour := (h + hour_offset) % 24
        let minute := m + minute_offset
        let afterCarryUp := if 60 ≤ minute then (hour + 1, minute - 60) else (hour, minute)
        let afterBorrow :=
          if afterCarryUp.2 < 0 then (afterCarryUp.1 - 1, afterCarryUp.2 + 60) else afterCarryUp
        Except.ok (format02d afterBorrow.1 ++ ":" ++ format02d afterBorrow.2)

/-- The wind-down base recommendation (`app.py` lines 251-258). -/
def windDownRec (t : String) : Recommendation :=
  { id := "wind-down"
    title := "Wind-down Routine"
    description := "Begin relaxing activities 1-2 hours before bed"
    time := t
    priority := "high"
    category := "routine" }

/-- The digital-sunset base recommendation (`app.py` lines 260-267). -/
def screenCutoffRec (t : String) : Recommendation :=
  { id := "screen-cutoff"
    title := "Digital Sunset"
    description := "Turn off screens and blue light devices"
    time := t
    priority := "high"
    category := "environment" }

/-- The anxiety issue recommendation (`app.py` lines 272-279). -/
def anxietyReliefRec (t : String) : Recommendation :=
  { id := "anxiety-relief"
    title := "Anxiety Management"
    description := "Practice deep breathing or meditation"
    time := t
    priority := "high"
    category := "mental-health" }

/-- The temperature issue recommendation (`app.py` lines 281-288). -/
def temperatureControlRec (t : String) : Recommendation :=
  { id := "temperature-control"
    title := "Temperature Optimization"
    description := "Set bedroom to 65-68Â°F"
    time := t
    priority := "high"
    category := "environment" }

/-- The `for issue in profile['sleepIssues']` loop of
`generate_ai_recommendations` (`app.py` lines 270-288): appends one
recommendation per known tag occurrence, in input order. -/
def issueRecommendations (bedtime : String) : List String → Except String (List Recommendation)
  | [] => Except.ok []
  | issue :: rest =>
    if issue = "anxiety" then
      match calculate_time_offset bedtime (-1) 30 with
      | Except.error e => Except.error e
      | Except.ok t =>
        match issueRecommendations bedtime rest with
        | Except.error e => Except.error e
        | Except.ok rs => Except.ok (anxietyReliefRec t :: rs)
    else if issue = "temperature" then
      match calculate_time_offset bedtime (-1) 0 with
      | Except.error e => Except.error e
      | Except.ok t =>
        match issueRecommendations bedtime rest with
        | Except.error e => Except.error e
        | Except.ok rs => Except.ok (temperatureControlRec t :: rs)
    else issueRecommendations bedtime rest

/-- `generate_ai_recommendations` (`app.py` lines 246-290).  The
`analysis` argument is carried but never read, as in the source. -/
def generate_ai_recommendations (profile : SleepProfile) (analysis : SleepMetrics) :
    Except String (List Recommendation) :=
  match calculate_time_offset profile.bedtime (-2) 0 with
  | Except.error e => Except.error e
  | Except.ok t1 =>
    match calculate_time_offset profile.bedtime (-1) 0 with
    | Except.error e => Except.error e
    | Except.ok t2 =>
      match issueRecommendations profile.bedtime profile.sleepIssues with
      | Except.error e => Except.error e
      | Except.ok extra => Except.ok (windDownRec t1 :: screenCutoffRec t2 :: extra)

/-- The `/api/sleep-profile` route body (`app.py` lines 169-207): `none`
models a missing/empty JSON body (400); any exception from the
computation is caught and converted into an error response with HTTP
status 500. -/
def analyze_sleep_profile (data : Option SleepProfile) :
    Except (Nat × String) ProfileResponse :=
  match data with
  | none => Except.error (400, "No profile data provided")
  | some profile =>
    match calculate_sleep_metrics profile with
    | Except.error e => Except.error (500, e)
    | Except.ok analysis =>
      match generate_ai_recommendations profile analysis with
      | Except.error e => Except.error (500, e)
      | Except.ok recommendations =>
        Except.ok { profile := profile, analysis := analysis, recommendations := recommendations }

/-! ## Filtered-insights aggregator (`app.py` lines 90-167) -/

/-- The recommendation strings of `generate_recommendations`
(`app.py` lines 145-165). -/
def recSleepLow : String :=
  "Consider aiming for 7-9 hours of sleep per night for optimal health"

def recSleepHigh : String :=
  "While longer sleep can be beneficial, ensure it\x27s quality sleep"

def recQualityEnv : String :=
  "Focus on improving sleep environment: cool, dark, quiet bedroom"

def recQualityRoutine : String :=
  "Establish a consistent bedtime routine"

def recProdHigh : String :=
  "Your sleep patterns are supporting high productivity - maintain consistency"

def recProdLow : String :=
  "Poor sleep may be affecting productivity - prioritize sleep hygiene"

def recAgeYoung : String :=
  "Young adults often need 7-9 hours of sleep for cognitive performance"

def recAgeOld : String :=
  "Older adults may need consistent sleep timing for better health"

/-- The full rule table in source order (`app.py` lines 144-165). -/
def ruleTableOrder : List String :=
  [recSleepLow, recSleepHigh, recQualityEnv, recQualityRoutine,
   recProdHigh, recProdLow, recAgeYoung, recAgeOld]

/-- `generate_recommendations` (`app.py` lines 136-167): appends the
matching rule-table entries in source order.  The `gender` argument is
carried but never read, as in the source. -/
def generate_recommendations (df : List SleepRecord) (age : Int) (gender : String) :
    List String :=
  let avg_sleep := listMean (df.map (fun r => r.totalSleepHours))
  let avg_quality := listMean (df.map (fun r => r.sleepQuality))
  let avg_productivity := listMean (df.map (fun r => r.productivityScore))
  (if avg_sleep < 7 then [recSleepLow]
   else if 9 < avg_sleep then [recSleepHigh] else [])
  ++ (if avg_quality < 7 then [recQualityEnv, recQualityRoutine] else [])
  ++ (if 85 < avg_productivity then [recProdHigh]
      else if avg_productivity < 75 then [recProdLow] else [])
  ++ (if age < 30 then [recAgeYoung]
      else if 50 < age then [recAgeOld] else [])

/-- The age/gender filter of `get_personalized_insights`
(`app.py` lines 103-106): age window of plus or minus 5 inclusive, then
a case-insensitive gender filter skipped when the requested gender
lowercases to `"all"`. -/
def filterByAgeGender (df : List SleepRecord) (age : Int) (gender : String) :
    List SleepRecord :=
  let age_filtered :=
    df.filter (fun r => decide (age - 5 ≤ r.age) && decide (r.age ≤ age + 5))
  if pyLower gender ≠ "all" then
    age_filtered.filter (fun r => pyLower r.gender == pyLower gender)
  else age_filtered

/-- The `/api/sleep-insights/<age>/<gender>` route body
(`app.py` lines 90-128), minus the file-existence check: empty filtered
subset gives the 404 no-data error, otherwise the insight payload. -/
def get_personalized_insights (df : List SleepRecord) (age : Int) (gender : String) :
    Except (Nat × String) SleepInsights :=
  let age_filtered := filterByAgeGender df age gender
  if age_filtered.length = 0 then
    Except.error (404, "No data found for the specified criteria")
  else
    Except.ok
      { average_sleep_hours := pyRound2 (listMean (age_filtered.map (fun r => r.totalSleepHours)))
        average_sleep_quality := pyRound2 (listMean (age_filtered.map (fun r => r.sleepQuality)))
        average_productivity := pyRound2 (listMean (age_filtered.map (fun r => r.productivityScore)))
        average_mood := pyRound2 (listMean (age_filtered.map (fun r => r.moodScore)))
        average_stress := pyRound2 (listMean (age_filtered.map (fun r => r.stressLevel)))
        sample_size := age_filtered.length
        recommendations := generate_recommendations age_filtered age gender }

/-! ## Spec-side reference definitions -/

/-- Modelled from the spec\x27s words for comparison with the code: the
clock time `d` minutes before `bh:bm`, as (hour, minute) with hour in
`[0,23]` and minute in `[0,59]` (wall-clock subtraction modulo one
day). -/
def specMinutesBefore (bh bm d : Int) : Int × Int :=
  let total := (bh * 60 + bm - d) % 1440
  (total / 60, total % 60)

/-- The HH:MM string `d` minutes before `bh:bm` (spec-side reading). -/
def specMinutesBeforeStr (bh bm d : Int) : String :=
  format02d (specMinutesBefore bh bm d).1 ++ ":" ++ format02d (specMinutesBefore bh bm d).2

/-- Whether the hour field of a time string parses as an integer, i.e.
`int(s.split(':')[0])` does not raise. -/
def hourFieldOk (s : String) : Bool := (parseHourField s).isSome

/-- Whether the minute field of a time string exists and parses as an
integer, i.e. `int(s.split(':')[1])` does not raise. -/
def minuteFieldOk (s : String) : Bool :=
  match (pySplitColon s)[1]? with
  | none => false
  | some ms => (pyInt ms).isSome

/-! ## Helper lemmas -/

lemma le_pyMaxQ_left (a b : ℚ) : a ≤ pyMaxQ a b := by
  unfold pyMaxQ; split_ifs with h
  · exact le_of_lt h
  · exact le_refl a

lemma pyMinQ_le_left (a b : ℚ) : pyMinQ a b ≤ a := by
  unfold pyMinQ; split_ifs with h
  · exact le_refl a
  · exact le_of_not_le h

lemma pyMinQ_nonneg {a b : ℚ} (ha : 0 ≤ a) (hb : 0 ≤ b) : 0 ≤ pyMinQ a b := by
  unfold pyMinQ; split_ifs <;> assumption

lemma pyMaxI_left_le (a b : Int) : a ≤ pyMaxI a b := by
  unfold pyMaxI; split_ifs with h
  · exact le_of_lt h
  · exact le_refl a

lemma pyMaxI_le {a b c : Int} (ha : a ≤ c) (hb : b ≤ c) : pyMaxI a b ≤ c := by
  unfold pyMaxI; split_ifs <;> assumption

lemma pyRound_bounds (q : ℚ) (h0 : 0 ≤ q) (h1 : q ≤ 100) :
    0 ≤ pyRound q ∧ pyRound q ≤ 100 := by
  have hfl : ((Int.floor q : Int) : ℚ) ≤ q := Int.floor_le q
  have hf0 : (0 : Int) ≤ Int.floor q := Int.le_floor.mpr (by exact_mod_cast h0)
  have hf100 : Int.floor q ≤ 100 := by
    have : ((Int.floor q : Int) : ℚ) ≤ 100 := le_trans hfl h1
    exact_mod_cast this
  have key : ¬(q - Int.floor q < 1 / 2) → Int.floor q + 1 ≤ 100 := by
    intro h
    have h2 : ((Int.floor q : Int) : ℚ) + 1 / 2 ≤ q := by
      have := not_lt.mp h; linarith
    have h3 : ((Int.floor q : Int) : ℚ) < 100 := by linarith
    have h4 : Int.floor q < 100 := by exact_mod_cast h3
    omega
  constructor
  · unfold pyRound; split_ifs <;> omega
  · unfold pyRound; split_ifs with ha hb hc
    · exact hf100
    · exact key ha
    · exact hf100
    · exact key ha

lemma calculate_circadian_alignment_bounds (bh wh : Int) :
    0 ≤ calculate_circadian_alignment bh wh ∧ calculate_circadian_alignment bh wh ≤ 100 := by
  have hb0 := pyMaxI_left_le 0 (100 - ((bh - 22).natAbs : Int) * 10)
  have hw0 := pyMaxI_left_le 0 (100 - ((wh - 6).natAbs : Int) * 10)
  have hb1 : pyMaxI 0 (100 - ((bh - 22).natAbs : Int) * 10) ≤ 100 :=
    pyMaxI_le (by omega) (by omega)
  have hw1 : pyMaxI 0 (100 - ((wh - 6).natAbs : Int) * 10) ≤ 100 :=
    pyMaxI_le (by omega) (by omega)
  have hsum0 : (0 : Int) ≤ pyMaxI 0 (100 - ((bh - 22).natAbs : Int) * 10) +
      pyMaxI 0 (100 - ((wh - 6).natAbs : Int) * 10) := by omega
  have hsum200 : pyMaxI 0 (100 - ((bh - 22).natAbs : Int) * 10) +
      pyMaxI 0 (100 - ((wh - 6).natAbs : Int) * 10) ≤ 200 := by omega
  have h0 : (0 : ℚ) ≤ ((pyMaxI 0 (100 - ((bh - 22).natAbs : Int) * 10) +
      pyMaxI 0 (100 - ((wh - 6).natAbs : Int) * 10) : Int) : ℚ) / 2 := by
    apply div_nonneg _ (by norm_num)
    exact_mod_cast hsum0
  have h100 : ((pyMaxI 0 (100 - ((bh - 22).natAbs : Int) * 10) +
      pyMaxI 0 (100 - ((wh - 6).natAbs : Int) * 10) : Int) : ℚ) / 2 ≤ 100 := by
    have h200 : ((pyMaxI 0 (100 - ((bh - 22).natAbs : Int) * 10) +
        pyMaxI 0 (100 - ((wh - 6).natAbs : Int) * 10) : Int) : ℚ) ≤ 200 := by
      exact_mod_cast hsum200
    linarith
  exact pyRound_bounds _ h0 h100

/-- Evaluation of `calculate_time_offset` on a parsed two-field time when
the combined minute needs no carry. -/
lemma calculate_time_offset_nocarry (s hs ms : String) (bh bm ho mo : Int)
    (hsplit : pySplitColon s = [hs, ms]) (hph : pyInt hs = some bh)
    (hpm : pyInt ms = some bm) (hlo : 0 ≤ bm + mo) (hhi : bm + mo < 60) :
    calculate_time_offset s ho mo =
      Except.ok (format02d ((bh + ho) % 24) ++ ":" ++ format02d (bm + mo)) := by
  have hhead : parseHourField s = some bh := by
    unfold parseHourField; rw [hsplit]; simpa using hph
  simp only [calculate_time_offset, hhead, hsplit]
  simp [hpm, not_le.mpr hhi, not_lt.mpr hlo]

/-- Evaluation of `calculate_time_offset` on a parsed two-field time when
the combined minute carries one hour up (the code increments the hour
after the modulo-24 normalization, so the hour is not re-normalized). -/
lemma calculate_time_offset_carry (s hs ms : String) (bh bm ho mo : Int)
    (hsplit : pySplitColon s = [hs, ms]) (hph : pyInt hs = some bh)
    (hpm : pyInt ms = some bm) (hlo : 60 ≤ bm + mo) :
    calculate_time_offset s ho mo =
      Except.ok (format02d ((bh + ho) % 24 + 1) ++ ":" ++ format02d (bm + mo - 60)) := by
  have hhead : parseHourField s = some bh := by
    unfold parseHourField; rw [hsplit]; simpa using hph
  simp only [calculate_time_offset, hhead, hsplit]
  simp [hpm, hlo, not_lt.mpr hlo]

/-- `calculate_time_offset` always succeeds on a time whose first two
colon-separated fields parse. -/
lemma calculate_time_offset_ok (s ms : String) (bh bm : Int)
    (hph : parseHourField s = some bh) (hm1 : (pySplitColon s)[1]? = some ms)
    (hpm : pyInt ms = some bm) (ho mo : Int) :
    ∃ t, calculate_time_offset s ho mo = Except.ok t := by
  simp only [calculate_time_offset, hph, hm1, hpm]
  split_ifs <;> exact ⟨_, rfl⟩

/-- The spec-side time 120 minutes before `bh:bm` agrees with the offset
`(-2, 0)` the code applies for the wind-down recommendation. -/
lemma specMinutesBefore_120 (bh bm : Int) (h0 : 0 ≤ bm) (h1 : bm < 60) :
    specMinutesBeforeStr bh bm 120 =
      format02d ((bh + -2) % 24) ++ ":" ++ format02d (bm + 0) := by
  have e1 : (specMinutesBefore bh bm 120).1 = (bh + -2) % 24 := by
    simp only [specMinutesBefore]; omega
  have e2 : (specMinutesBefore bh bm 120).2 = bm + 0 := by
    simp only [specMinutesBefore]; omega
  rw [specMinutesBeforeStr, e1, e2]

/-- The spec-side time 60 minutes before `bh:bm` agrees with the offset
`(-1, 0)` the code applies for the digital-sunset and temperature
recommendations. -/
lemma specMinutesBefore_60 (bh bm : Int) (h0 : 0 ≤ bm) (h1 : bm < 60) :
    specMinutesBeforeStr bh bm 60 =
      format02d ((bh + -1) % 24) ++ ":" ++ format02d (bm + 0) := by
  have e1 : (specMinutesBefore bh bm 60).1 = (bh + -1) % 24 := by
    simp only [specMinutesBefore]; omega
  have e2 : (specMinutesBefore bh bm 60).2 = bm + 0 := by
    simp only [specMinutesBefore]; omega
  rw [specMinutesBeforeStr, e1, e2]

/-- The spec-side time 30 minutes before `bh:bm`, no-carry case
(`bm < 30`): agrees with the code offset `(-1, +30)`. -/
lemma specMinutesBefore_30_nocarry (bh bm : Int) (h0 : 0 ≤ bm) (h1 : bm < 30) :
    specMinutesBeforeStr bh bm 30 =
      format02d ((bh + -1) % 24) ++ ":" ++ format02d (bm + 30) := by
  have e1 : (specMinutesBefore bh bm 30).1 = (bh + -1) % 24 := by
    simp only [specMinutesBefore]; omega
  have e2 : (specMinutesBefore bh bm 30).2 = bm + 30 := by
    simp only [specMinutesBefore]; omega
  rw [specMinutesBeforeStr, e1, e2]

/-- The spec-side time 30 minutes before `bh:bm`, carry case
(`30 ≤ bm < 60`, `1 ≤ bh ≤ 23`): agrees with the code offset `(-1, +30)`
after the minute carry.  For `bh = 0` the code instead produces hour 24
(see the C4 analysis), which is why that case is excluded. -/
lemma specMinutesBefore_30_carry (bh bm : Int) (hbh0 : 1 ≤ bh) (hbh1 : bh ≤ 23)
    (h0 : 30 ≤ bm) (h1 : bm < 60) :
    specMinutesBeforeStr bh bm 30 =
      format02d ((bh + -1) % 24 + 1) ++ ":" ++ format02d (bm + 30 - 60) := by
  have e1 : (specMinutesBefore bh bm 30).1 = (bh + -1) % 24 + 1 := by
    simp only [specMinutesBefore]; omega
  have e2 : (specMinutesBefore bh bm 30).2 = bm + 30 - 60 := by
    simp only [specMinutesBefore]; omega
  rw [specMinutesBeforeStr, e1, e2]

/-- Characterization of the issue loop: it succeeds whenever the two
time offsets it may need succeed, each `"anxiety"` occurrence contributes
exactly one `anxiety-relief` entry timed `tA`, each `"temperature"`
occurrence exactly one `temperature-control` entry timed `tT`, and a list
of only unknown tags contributes nothing. -/
lemma issueRecommendations_props (s tA tT : String)
    (hA : calculate_time_offset s (-1) 30 = Except.ok tA)
    (hT : calculate_time_offset s (-1) 0 = Except.ok tT) :
    ∀ issues : List String, ∃ rs,
      issueRecommendations s issues = Except.ok rs ∧
      rs.countP (fun r => r.id == "anxiety-relief") = issues.count "anxiety" ∧
      rs.countP (fun r => r.id == "temperature-control") = issues.count "temperature" ∧
      (∀ r ∈ rs, r.id = "anxiety-relief" → r.time = tA) ∧
      (∀ r ∈ rs, r.id = "temperature-control" → r.time = tT) ∧
      ((∀ i ∈ issues, i ≠ "anxiety" ∧ i ≠ "temperature") → rs = []) := by
  intro issues
  induction issues with
  | nil => exact ⟨[], rfl, by simp, by simp, by simp, by simp, fun _ => rfl⟩
  | cons i rest ih =>
    obtain ⟨rs, hrs, hcA, hcT, htA, htT, hunk⟩ := ih
    by_cases hi : i = "anxiety"
    · subst hi
      refine ⟨anxietyReliefRec tA :: rs, ?_, ?_, ?_, ?_, ?_, ?_⟩
      · simp [issueRecommendations, hA, hrs]
      · simp [List.countP_cons, hcA, anxietyReliefRec, List.count_cons]
      · simp [List.countP_cons, hcT, anxietyReliefRec, List.count_cons]
      · intro r hr hid
        rw [List.mem_cons] at hr
        rcases hr with hr | hr
        · simp [hr, anxietyReliefRec]
        · exact htA r hr hid
      · intro r hr hid
        rw [List.mem_cons] at hr
        rcases hr with hr | hr
        · rw [hr] at hid; simp [anxietyReliefRec] at hid
        · exact htT r hr hid
      · intro hall
        exact absurd rfl (hall "anxiety" (by simp)).1
    · by_cases hi2 : i = "temperature"
      · subst hi2
        refine ⟨temperatureControlRec tT :: rs, ?_, ?_, ?_, ?_, ?_, ?_⟩
        · simp [issueRecommendations, hT, hrs]
        · simp [List.countP_cons, hcA, temperatureControlRec, List.count_cons]
        · simp [List.countP_cons, hcT, temperatureControlRec, List.count_cons]
        · intro r hr hid
          rw [List.mem_cons] at hr
          rcases hr with hr | hr
          · rw [hr] at hid; simp [temperatureControlRec] at hid
          · exact htA r hr hid
        · intro r hr hid
          rw [List.mem_cons] at hr
          rcases hr with hr | hr
          · simp [hr, temperatureControlRec]
          · exact htT r hr hid
        · intro hall
          exact absurd rfl (hall "temperature" (by simp)).2
      · refine ⟨rs, ?_, ?_, ?_, htA, htT, ?_⟩
        · simp [issueRecommendations, hi, hi2, hrs]
        · rw [hcA, List.count_cons]
          simp [hi]
        · rw [hcT, List.count_cons]
          simp [hi2]
        · intro hall
          exact hunk fun j hj => hall j (by simp [hj])

/-! ## Claims -/

/-- Claim C1: for every profile whose bedtime and wakeTime hour fields
parse, the computed `sleep_duration` is `(24 - bedtimeHour) + wakeHour`
when `wakeHour < bedtimeHour` and `wakeHour - bedtimeHour` otherwise,
minutes ignored; bedtime `23:00` with wakeTime `01:00` yields 2, and
bedtime `22:00` with wakeTime `22:00` yields 0, not 24. -/
theorem claim_C1 :
    (∀ (p : SleepProfile) (bh wh : Int),
      parseHourField p.bedtime = some bh → parseHourField p.wakeTime = some wh →
      p.sleepGoal ≠ 0 →
      ∃ m, calculate_sleep_metrics p = Except.ok m ∧
        m.sleep_duration = (if wh < bh then (24 - bh) + wh else wh - bh)) ∧
    (∃ m, calculate_sleep_metrics
        { bedtime := "23:00", wakeTime := "01:00", sleepGoal := 8,
          lifestyle := "moderate", sleepIssues := [] } = Except.ok m ∧
      m.sleep_duration = 2) ∧
    (∃ m, calculate_sleep_metrics
        { bedtime := "22:00", wakeTime := "22:00", sleepGoal := 8,
          lifestyle := "moderate", sleepIssues := [] } = Except.ok m ∧
      m.sleep_duration = 0) := by
  refine ⟨?_, ⟨_, rfl, rfl⟩, ⟨_, rfl, rfl⟩⟩
  intro p bh wh hB hW hg
  simp only [calculate_sleep_metrics, hB, hW]
  rw [if_neg hg]
  exact ⟨_, rfl, rfl⟩

/-- Witness for C1: the universal part applied to the overnight example
profile with parsed hours 23 and 1. -/
theorem claim_C1_witness :
    ∃ m, calculate_sleep_metrics
        { bedtime := "23:00", wakeTime := "01:00", sleepGoal := 8,
          lifestyle := "moderate", sleepIssues := [] } = Except.ok m ∧
      m.sleep_duration = (if (1 : Int) < 23 then (24 - 23) + 1 else 1 - 23) :=
  claim_C1.1 _ 23 1 (by decide) (by decide) (by decide)

/-- Claim C4 (code bug): the time-offset helper does not re-normalize the
hour after the minute carry, so the output hour can leave `[0,23]`: the
offset `(-1, +30)` that the anxiety path applies to bedtime `00:45`
yields `"24:15"` instead of `"00:15"`.  The claimed two-level borrow
example does hold: `"00:30"` offset by `(-1, -45)` gives `"22:45"`. -/
theorem claim_C4 :
    calculate_time_offset "00:45" (-1) 30 = Except.ok "24:15" ∧
    calculate_time_offset "00:30" (-1) (-45) = Except.ok "22:45" := ⟨rfl, rfl⟩

/-- Claim C9: in every evaluation of the filtered-insights rule table,
the output is an in-order selection from the fixed table, at most one of
the two sleep-duration entries fires, at most one of the two
productivity entries fires, and the two sleep-quality entries fire
together or not at all. -/
theorem claim_C9 : ∀ (df : List SleepRecord) (age : Int) (gender : String),
    List.Sublist (generate_recommendations df age gender) ruleTableOrder ∧
    ¬(recSleepLow ∈ generate_recommendations df age gender ∧
      recSleepHigh ∈ generate_recommendations df age gender) ∧
    ((recQualityEnv ∈ generate_recommendations df age gender) ↔
      (recQualityRoutine ∈ generate_recommendations df age gender)) ∧
    ¬(recProdHigh ∈ generate_recommendations df age gender ∧
      recProdLow ∈ generate_recommendations df age gender) := by
  intro df age gender
  simp only [generate_recommendations]
  split_ifs <;> decide

/-- Claim C10: `generate_recommendations` never reads its gender
argument, so two invocations differing only in gender coincide. -/
theorem claim_C10 : ∀ (df : List SleepRecord) (age : Int) (g1 g2 : String),
    generate_recommendations df age g1 = generate_recommendations df age g2 :=
  fun _ _ _ _ => rfl

/-- Claim C2: for every profile with positive sleep goal and hours in
`[0,23]`, the derived metrics satisfy `sleep_debt ≥ 0`,
`sleep_efficiency ∈ [0,100]` and `circadian_alignment ∈ [0,100]`; for
parsed hours 22 and 6 (bedtime `22:00`, wakeTime `06:00`) the alignment
is exactly 100. -/
theorem claim_C2 :
    (∀ (p : SleepProfile) (bh wh : Int),
      parseHourField p.bedtime = some bh → parseHourField p.wakeTime = some wh →
      0 < p.sleepGoal → 0 ≤ bh → bh ≤ 23 → 0 ≤ wh → wh ≤ 23 →
      ∃ m, calculate_sleep_metrics p = Except.ok m ∧
        0 ≤ m.sleep_debt ∧
        0 ≤ m.sleep_efficiency ∧ m.sleep_efficiency ≤ 100 ∧
        0 ≤ m.circadian_alignment ∧ m.circadian_alignment ≤ 100 ∧
        m.circadian_alignment = calculate_circadian_alignment bh wh) ∧
    (∃ m, calculate_sleep_metrics
        { bedtime := "22:00", wakeTime := "06:00", sleepGoal := 8,
          lifestyle := "moderate", sleepIssues := [] } = Except.ok m ∧
      m.circadian_alignment = 100) := by
  constructor
  · intro p bh wh hB hW hg hb0 hb1 hw0 hw1
    simp only [calculate_sleep_metrics, hB, hW]
    rw [if_neg (ne_of_gt hg)]
    have hD0 : (0 : Int) ≤ (if wh < bh then (24 - bh) + wh else wh - bh) := by
      split_ifs <;> omega
    have hdebt : 0 ≤ pyMaxQ 0 (p.sleepGoal -
        ((if wh < bh then (24 - bh) + wh else wh - bh : Int) : ℚ)) :=
      le_pyMaxQ_left 0 _
    have heff0 : 0 ≤ pyMinQ 100
        (((if wh < bh then (24 - bh) + wh else wh - bh : Int) : ℚ) / p.sleepGoal * 100) :=
      pyMinQ_nonneg (by norm_num)
        (mul_nonneg (div_nonneg (by exact_mod_cast hD0) (le_of_lt hg)) (by norm_num))
    have heff1 : pyMinQ 100
        (((if wh < bh then (24 - bh) + wh else wh - bh : Int) : ℚ) / p.sleepGoal * 100) ≤ 100 :=
      pyMinQ_le_left _ _
    have hca := calculate_circadian_alignment_bounds bh wh
    exact ⟨_, rfl, hdebt, heff0, heff1, hca.1, hca.2, rfl⟩
  · have hB : parseHourField "22:00" = some 22 := by decide
    have hW : parseHourField "06:00" = some 6 := by decide
    simp only [calculate_sleep_metrics, hB, hW]
    rw [if_neg (by norm_num : (8 : ℚ) ≠ 0)]
    refine ⟨_, rfl, ?_⟩
    show calculate_circadian_alignment 22 6 = 100
    norm_num [calculate_circadian_alignment, pyMaxI, pyRound]

/-- Witness for C2: the universal part applied to the default profile
`22:00`/`06:00` with goal 8. -/
theorem claim_C2_witness :
    ∃ m, calculate_sleep_metrics
        { bedtime := "22:00", wakeTime := "06:00", sleepGoal := 8,
          lifestyle := "moderate", sleepIssues := [] } = Except.ok m ∧
      0 ≤ m.sleep_debt ∧
      0 ≤ m.sleep_efficiency ∧ m.sleep_efficiency ≤ 100 ∧
      0 ≤ m.circadian_alignment ∧ m.circadian_alignment ≤ 100 ∧
      m.circadian_alignment = calculate_circadian_alignment 22 6 :=
  claim_C2.1 _ 22 6 (by decide) (by decide) (by norm_num)
    (by decide) (by decide) (by decide) (by decide)

/-- Claim C6 (amended): a zero sleep goal makes the efficiency division
raise, and the route converts this into the structured catch-all error
with HTTP status 500 (a server-fault status, not a client-fault
validation status); for a nonzero goal the efficiency is
`min(100, duration / sleepGoal * 100)`. -/
theorem claim_C6 :
    (∀ (p : SleepProfile) (bh wh : Int),
      parseHourField p.bedtime = some bh → parseHourField p.wakeTime = some wh →
      p.sleepGoal = 0 →
      analyze_sleep_profile (some p) = Except.error (500, "ZeroDivisionError") ∧
      ¬ isClientFault 500) ∧
    (∀ (p : SleepProfile) (bh wh : Int),
      parseHourField p.bedtime = some bh → parseHourField p.wakeTime = some wh →
      p.sleepGoal ≠ 0 →
      ∃ m, calculate_sleep_metrics p = Except.ok m ∧
        m.sleep_efficiency = pyMinQ 100 ((m.sleep_duration : ℚ) / p.sleepGoal * 100)) := by
  constructor
  · intro p bh wh hB hW hz
    refine ⟨?_, ?_⟩
    · simp [analyze_sleep_profile, calculate_sleep_metrics, hB, hW, hz]
    · simp [isClientFault]
  · intro p bh wh hB hW hz
    simp only [calculate_sleep_metrics, hB, hW]
    rw [if_neg hz]
    exact ⟨_, rfl, rfl⟩

/-- Witness for C6: both parts applied to concrete profiles with goal 0
and goal 8. -/
theorem claim_C6_witness :
    (analyze_sleep_profile (some
        { bedtime := "22:00", wakeTime := "06:00", sleepGoal := 0,
          lifestyle := "moderate", sleepIssues := [] }) =
      Except.error (500, "ZeroDivisionError") ∧ ¬ isClientFault 500) ∧
    (∃ m, calculate_sleep_metrics
        { bedtime := "22:00", wakeTime := "06:00", sleepGoal := 8,
          lifestyle := "moderate", sleepIssues := [] } = Except.ok m ∧
      m.sleep_efficiency = pyMinQ 100 ((m.sleep_duration : ℚ) / (8 : ℚ) * 100)) :=
  ⟨claim_C6.1 _ 22 6 (by decide) (by decide) (by norm_num),
   claim_C6.2 _ 22 6 (by decide) (by decide) (by norm_num)⟩

/-- Counterexample for C6 as stated: with sleepGoal 0 the route answers
with HTTP status 500, the generic catch-all, which is not a client-fault
(4xx) validation status. -/
theorem claim_C6_counterexample :
    analyze_sleep_profile (some
      { bedtime := "22:00", wakeTime := "06:00", sleepGoal := 0,
        lifestyle := "moderate", sleepIssues := [] }) =
      Except.error (500, "ZeroDivisionError") ∧ ¬ isClientFault 500 :=
  ⟨rfl, by simp [isClientFault]⟩

/-- Claim C5 (amended): when the bedtime hour or minute field, or the
wakeTime hour field, fails to parse as an integer, the route answers
with the structured catch-all error carrying HTTP status 500 - which is
a server-fault status, not a client-fault (4xx) validation status; and
when those three fields parse (and the goal is nonzero) the evaluation
succeeds, so a wakeTime whose minute field is unparseable is silently
accepted rather than rejected. -/
theorem claim_C5 :
    (∀ p : SleepProfile,
      ¬(hourFieldOk p.bedtime = true ∧ minuteFieldOk p.bedtime = true ∧
        hourFieldOk p.wakeTime = true) →
      ∃ msg, analyze_sleep_profile (some p) = Except.error (500, msg)) ∧
    (¬ isClientFault 500) ∧
    (∀ p : SleepProfile,
      hourFieldOk p.bedtime = true → minuteFieldOk p.bedtime = true →
      hourFieldOk p.wakeTime = true → p.sleepGoal ≠ 0 →
      ∃ r, analyze_sleep_profile (some p) = Except.ok r) := by
  refine ⟨?_, by simp [isClientFault], ?_⟩
  · intro p h
    rcases hB : parseHourField p.bedtime with _ | bh
    · exact ⟨"ValueError", by simp [analyze_sleep_profile, calculate_sleep_metrics, hB]⟩
    · rcases hW : parseHourField p.wakeTime with _ | wh
      · exact ⟨"ValueError", by simp [analyze_sleep_profile, calculate_sleep_metrics, hB, hW]⟩
      · have hmf : ¬ minuteFieldOk p.bedtime = true := by
          intro hmt
          exact h ⟨by simp [hourFieldOk, hB], hmt, by simp [hourFieldOk, hW]⟩
        by_cases hz : p.sleepGoal = 0
        · exact ⟨"ZeroDivisionError",
            by simp [analyze_sleep_profile, calculate_sleep_metrics, hB, hW, hz]⟩
        · rcases hm1 : (pySplitColon p.bedtime)[1]? with _ | ms
          · refine ⟨"IndexError", ?_⟩
            simp [analyze_sleep_profile, calculate_sleep_metrics,
              generate_ai_recommendations, calculate_time_offset, hB, hW, hz, hm1]
          · have hpm : pyInt ms = none := by
              rcases hpm : pyInt ms with _ | v
              · rfl
              · exact absurd (by simp [minuteFieldOk, hm1, hpm]) hmf
            refine ⟨"ValueError", ?_⟩
            simp [analyze_sleep_profile, calculate_sleep_metrics,
              generate_ai_recommendations, calculate_time_offset, hB, hW, hz, hm1, hpm]
  · intro p h1 h2 h3 hz
    obtain ⟨bh, hB⟩ := Option.isSome_iff_exists.mp (by simpa [hourFieldOk] using h1)
    obtain ⟨wh, hW⟩ := Option.isSome_iff_exists.mp (by simpa [hourFieldOk] using h3)
    rcases hm1 : (pySplitColon p.bedtime)[1]? with _ | ms
    · rw [minuteFieldOk, hm1] at h2
      exact absurd h2 (by simp)
    · have hpmS : (pyInt ms).isSome = true := by
        have := h2
        rw [minuteFieldOk, hm1] at this
        exact this
      obtain ⟨bm, hpm⟩ := Option.isSome_iff_exists.mp hpmS
      obtain ⟨t1, ht1⟩ := calculate_time_offset_ok p.bedtime ms bh bm hB hm1 hpm (-2) 0
      obtain ⟨t2, ht2⟩ := calculate_time_offset_ok p.bedtime ms bh bm hB hm1 hpm (-1) 0
      obtain ⟨tA, htA⟩ := calculate_time_offset_ok p.bedtime ms bh bm hB hm1 hpm (-1) 30
      obtain ⟨rs, hrs, -, -, -, -, -⟩ :=
        issueRecommendations_props p.bedtime tA t2 htA ht2 p.sleepIssues
      simp [analyze_sleep_profile, calculate_sleep_metrics,
        generate_ai_recommendations, hB, hW, hz, ht1, ht2, hrs]

/-- Witness for C5: an unparseable bedtime hour yields the 500 error, a
fully parseable profile evaluates successfully. -/
theorem claim_C5_witness :
    (∃ msg, analyze_sleep_profile (some
        { bedtime := "ab:00", wakeTime := "06:00", sleepGoal := 8,
          lifestyle := "moderate", sleepIssues := [] }) =
      Except.error (500, msg)) ∧
    (∃ r, analyze_sleep_profile (some
        { bedtime := "22:30", wakeTime := "06:30", sleepGoal := 8,
          lifestyle := "moderate", sleepIssues := ["anxiety", "screen-time"] }) =
      Except.ok r) :=
  ⟨claim_C5.1 _ (by decide),
   claim_C5.2.2 _ (by decide) (by decide) (by decide) (by norm_num)⟩

/-- Counterexample for C5 as stated: a wakeTime whose minute field is not
an integer (`"06:xx"`) is silently accepted - the evaluation succeeds, so
no validation error is raised at all; and when a time string does fail to
parse, the status is the 500 catch-all, not a client-fault 4xx. -/
theorem claim_C5_counterexample :
    (analyze_sleep_profile (some
        { bedtime := "22:00", wakeTime := "06:xx", sleepGoal := 8,
          lifestyle := "moderate", sleepIssues := [] })).isOk = true ∧
    analyze_sleep_profile (some
        { bedtime := "ab:00", wakeTime := "06:00", sleepGoal := 8,
          lifestyle := "moderate", sleepIssues := [] }) =
      Except.error (500, "ValueError") ∧
    ¬ isClientFault 500 :=
  ⟨rfl, rfl, by simp [isClientFault]⟩

/-- Claim C3 (amended): each occurrence of the `"anxiety"` tag adds
exactly one `anxiety-relief` recommendation, and its time is 30 minutes
before bedtime - the code applies the offset `(-1 hour, +30 minutes)`,
not bedtime minus 1 hour 30 minutes; each `"temperature"` occurrence
adds exactly one `temperature-control` recommendation timed one hour
before bedtime.  The case `bedtimeHour = 0 ∧ bedtimeMinute ≥ 30` is
excluded because there the minute carry produces hour 24 (claim C4). -/
theorem claim_C3 :
    ∀ (p : SleepProfile) (a : SleepMetrics) (hs ms : String) (bh bm : Int),
      pySplitColon p.bedtime = [hs, ms] → pyInt hs = some bh → pyInt ms = some bm →
      0 ≤ bh → bh ≤ 23 → 0 ≤ bm → bm ≤ 59 → ¬(bh = 0 ∧ 30 ≤ bm) →
      ∃ recs, generate_ai_recommendations p a = Except.ok recs ∧
        recs.countP (fun r => r.id == "anxiety-relief") =
          p.sleepIssues.count "anxiety" ∧
        (∀ r ∈ recs, r.id = "anxiety-relief" →
          r.time = specMinutesBeforeStr bh bm 30) ∧
        recs.countP (fun r => r.id == "temperature-control") =
          p.sleepIssues.count "temperature" ∧
        (∀ r ∈ recs, r.id = "temperature-control" →
          r.time = specMinutesBeforeStr bh bm 60) := by
  intro p a hs ms bh bm hsplit hph hpm hb0 hb1 hm0 hm1 hx
  have ht1 := calculate_time_offset_nocarry p.bedtime hs ms bh bm (-2) 0
    hsplit hph hpm (by omega) (by omega)
  have ht2 := calculate_time_offset_nocarry p.bedtime hs ms bh bm (-1) 0
    hsplit hph hpm (by omega) (by omega)
  have hanx : ∃ tA, calculate_time_offset p.bedtime (-1) 30 = Except.ok tA ∧
      tA = specMinutesBeforeStr bh bm 30 := by
    by_cases hc : bm < 30
    · exact ⟨_, calculate_time_offset_nocarry p.bedtime hs ms bh bm (-1) 30
          hsplit hph hpm (by omega) (by omega),
        (specMinutesBefore_30_nocarry bh bm (by omega) hc).symm⟩
    · exact ⟨_, calculate_time_offset_carry p.bedtime hs ms bh bm (-1) 30
          hsplit hph hpm (by omega),
        (specMinutesBefore_30_carry bh bm (by omega) hb1 (by omega) (by omega)).symm⟩
  obtain ⟨tA, htA, htAspec⟩ := hanx
  have ht2spec : (format02d ((bh + -1) % 24) ++ ":" ++ format02d (bm + 0)) =
      specMinutesBeforeStr bh bm 60 :=
    (specMinutesBefore_60 bh bm (by omega) (by omega)).symm
  obtain ⟨rs, hrs, hcA, hcT, htimeA, htimeT, hunk⟩ :=
    issueRecommendations_props p.bedtime tA _ htA ht2 p.sleepIssues
  refine ⟨windDownRec (format02d ((bh + -2) % 24) ++ ":" ++ format02d (bm + 0))
    :: screenCutoffRec (format02d ((bh + -1) % 24) ++ ":" ++ format02d (bm + 0))
    :: rs, ?_, ?_, ?_, ?_, ?_⟩
  · simp only [generate_ai_recommendations, ht1, ht2, hrs]
  · simp [List.countP_cons, windDownRec, screenCutoffRec, hcA]
  · intro r hr hid
    rw [List.mem_cons] at hr
    rcases hr with hr | hr
    · rw [hr] at hid; simp [windDownRec] at hid
    · rw [List.mem_cons] at hr
      rcases hr with hr | hr
      · rw [hr] at hid; simp [screenCutoffRec] at hid
      · exact (htimeA r hr hid).trans htAspec
  · simp [List.countP_cons, windDownRec, screenCutoffRec, hcT]
  · intro r hr hid
    rw [List.mem_cons] at hr
    rcases hr with hr | hr
    · rw [hr] at hid; simp [windDownRec] at hid
    · rw [List.mem_cons] at hr
      rcases hr with hr | hr
      · rw [hr] at hid; simp [screenCutoffRec] at hid
      · exact (htimeT r hr hid).trans ht2spec

/-- Witness for C3: bedtime `22:00` with issue list
`["anxiety", "xyz", "anxiety", "temperature"]` - two anxiety entries,
one temperature entry, timed 30 and 60 minutes before bedtime. -/
theorem claim_C3_witness :
    ∃ recs, generate_ai_recommendations
        { bedtime := "22:00", wakeTime := "06:00", sleepGoal := 8,
          lifestyle := "moderate",
          sleepIssues := ["anxiety", "xyz", "anxiety", "temperature"] }
        { sleep_duration := 8, sleep_debt := 0, sleep_efficiency := 100,
          circadian_alignment := 100 } = Except.ok recs ∧
      recs.countP (fun r => r.id == "anxiety-relief") =
        (["anxiety", "xyz", "anxiety", "temperature"] : List String).count "anxiety" ∧
      (∀ r ∈ recs, r.id = "anxiety-relief" →
        r.time = specMinutesBeforeStr 22 0 30) ∧
      recs.countP (fun r => r.id == "temperature-control") =
        (["anxiety", "xyz", "anxiety", "temperature"] : List String).count "temperature" ∧
      (∀ r ∈ recs, r.id = "temperature-control" →
        r.time = specMinutesBeforeStr 22 0 60) :=
  claim_C3 _ _ "22" "00" 22 0 (by decide) (by decide) (by decide)
    (by decide) (by decide) (by decide) (by decide) (by decide)

/-- Counterexample for C3 as stated: for bedtime `22:00` the anxiety
recommendation is timed `"21:30"` (30 minutes before bedtime), not
`"20:30"` (1 hour 30 minutes before bedtime) as the claim requires. -/
theorem claim_C3_counterexample :
    generate_ai_recommendations
        { bedtime := "22:00", wakeTime := "06:00", sleepGoal := 8,
          lifestyle := "moderate", sleepIssues := ["anxiety"] }
        { sleep_duration := 8, sleep_debt := 0, sleep_efficiency := 100,
          circadian_alignment := 100 } =
      Except.ok [windDownRec "20:00", screenCutoffRec "21:00", anxietyReliefRec "21:30"] ∧
    ("21:30" : String) ≠ "20:30" :=
  ⟨rfl, by decide⟩

/-- Claim C8: the recommendation list always begins with exactly the two
base recommendations - Wind-down Routine timed two hours before bedtime
and Digital Sunset timed one hour before bedtime, both priority high -
and unknown issue tags add nothing and raise no error. -/
theorem claim_C8 :
    ∀ (p : SleepProfile) (a : SleepMetrics) (hs ms : String) (bh bm : Int),
      pySplitColon p.bedtime = [hs, ms] → pyInt hs = some bh → pyInt ms = some bm →
      0 ≤ bh → bh ≤ 23 → 0 ≤ bm → bm ≤ 59 →
      ∃ extra,
        generate_ai_recommendations p a =
          Except.ok (windDownRec (specMinutesBeforeStr bh bm 120)
            :: screenCutoffRec (specMinutesBeforeStr bh bm 60) :: extra) ∧
        (windDownRec (specMinutesBeforeStr bh bm 120)).priority = "high" ∧
        (screenCutoffRec (specMinutesBeforeStr bh bm 60)).priority = "high" ∧
        ((∀ i ∈ p.sleepIssues, i ≠ "anxiety" ∧ i ≠ "temperature") → extra = []) := by
  intro p a hs ms bh bm hsplit hph hpm hb0 hb1 hm0 hm1
  have ht1 := calculate_time_offset_nocarry p.bedtime hs ms bh bm (-2) 0
    hsplit hph hpm (by omega) (by omega)
  have ht2 := calculate_time_offset_nocarry p.bedtime hs ms bh bm (-1) 0
    hsplit hph hpm (by omega) (by omega)
  have hph' : parseHourField p.bedtime = some bh := by
    unfold parseHourField; rw [hsplit]; simpa using hph
  have hm1' : (pySplitColon p.bedtime)[1]? = some ms := by rw [hsplit]; rfl
  obtain ⟨tA, htA⟩ := calculate_time_offset_ok p.bedtime ms bh bm hph' hm1' hpm (-1) 30
  obtain ⟨rs, hrs, -, -, -, -, hunk⟩ :=
    issueRecommendations_props p.bedtime tA _ htA ht2 p.sleepIssues
  refine ⟨rs, ?_, rfl, rfl, hunk⟩
  simp only [generate_ai_recommendations, ht1, ht2, hrs]
  rw [specMinutesBefore_120 bh bm (by omega) (by omega),
    specMinutesBefore_60 bh bm (by omega) (by omega)]

/-- Witness for C8: bedtime `23:15` with only the unknown tag `"xyz"`
yields exactly the two base recommendations. -/
theorem claim_C8_witness :
    ∃ extra,
      generate_ai_recommendations
          { bedtime := "23:15", wakeTime := "06:00", sleepGoal := 8,
            lifestyle := "moderate", sleepIssues := ["xyz"] }
          { sleep_duration := 7, sleep_debt := 1, sleep_efficiency := 100,
            circadian_alignment := 95 } =
        Except.ok (windDownRec (specMinutesBeforeStr 23 15 120)
          :: screenCutoffRec (specMinutesBeforeStr 23 15 60) :: extra) ∧
      (windDownRec (specMinutesBeforeStr 23 15 120)).priority = "high" ∧
      (screenCutoffRec (specMinutesBeforeStr 23 15 60)).priority = "high" ∧
      ((∀ i ∈ (["xyz"] : List String), i ≠ "anxiety" ∧ i ≠ "temperature") → extra = []) :=
  claim_C8 _ _ "23" "15" 23 15 (by decide) (by decide) (by decide)
    (by decide) (by decide) (by decide) (by decide)

/-- Claim C7: the filtered insight selects exactly the records whose age
lies in `[A-5, A+5]` inclusive and whose gender matches case-insensitively,
except that a gender lowercasing to `"all"` disables the gender filter
(yielding the age-only subset); an empty selection fails with the 404
no-data error, a nonempty one succeeds with the subset as sample. -/
theorem claim_C7 :
    (∀ (df : List SleepRecord) (age : Int) (gender : String),
      filterByAgeGender df age gender =
        df.filter (fun r => decide (age - 5 ≤ r.age) && decide (r.age ≤ age + 5) &&
          (pyLower gender == "all" || pyLower r.gender == pyLower gender))) ∧
    (∀ (df : List SleepRecord) (age : Int) (gender : String) (r : SleepRecord),
      r ∈ filterByAgeGender df age gender ↔
        (r ∈ df ∧ age - 5 ≤ r.age ∧ r.age ≤ age + 5 ∧
          (pyLower gender = "all" ∨ pyLower r.gender = pyLower gender))) ∧
    (∀ (df : List SleepRecord) (age : Int) (gender : String),
      pyLower gender = "all" →
      filterByAgeGender df age gender =
        df.filter (fun r => decide (age - 5 ≤ r.age) && decide (r.age ≤ age + 5))) ∧
    (∀ (df : List SleepRecord) (age : Int) (gender : String),
      filterByAgeGender df age gender = [] →
      get_personalized_insights df age gender =
        Except.error (404, "No data found for the specified criteria")) ∧
    (∀ (df : List SleepRecord) (age : Int) (gender : String),
      filterByAgeGender df age gender ≠ [] →
      ∃ ins, get_personalized_insights df age gender = Except.ok ins ∧
        ins.sample_size = (filterByAgeGender df age gender).length) := by
  have H1 : ∀ (df : List SleepRecord) (age : Int) (gender : String),
      filterByAgeGender df age gender =
        df.filter (fun r => decide (age - 5 ≤ r.age) && decide (r.age ≤ age + 5) &&
          (pyLower gender == "all" || pyLower r.gender == pyLower gender)) := by
    intro df age gender
    unfold filterByAgeGender
    by_cases h : pyLower gender = "all"
    · rw [if_neg (not_not_intro h)]
      apply List.filter_congr
      intro r _
      simp [h]
    · rw [if_pos h, List.filter_filter]
      apply List.filter_congr
      intro r _
      have hg : (pyLower gender == "all") = false := by
        simp only [beq_eq_false_iff_ne, ne_eq]
        exact h
      rw [hg]
      simp [Bool.and_comm]
  refine ⟨H1, ?_, ?_, ?_, ?_⟩
  · intro df age gender r
    rw [H1]
    simp [List.mem_filter, and_assoc]
  · intro df age gender h
    rw [H1]
    apply List.filter_congr
    intro r _
    simp [h]
  · intro df age gender h
    simp only [get_personalized_insights]
    rw [if_pos (by rw [h]; rfl)]
  · intro df age gender h
    simp only [get_personalized_insights]
    rw [if_neg (by simpa [List.length_eq_zero] using h)]
    exact ⟨_, rfl, rfl⟩

/-- Witness for C7: an adult-only two-record dataset matches nothing for
age 5 / gender `"male"` (404), and gender `"ALL"` reduces to the pure
age filter. -/
theorem claim_C7_witness :
    get_personalized_insights
        [{ totalSleepHours := 8, sleepQuality := 7, productivityScore := 80,
           moodScore := 7, stressLevel := 5, gender := "Male", age := 30 },
         { totalSleepHours := 7, sleepQuality := 8, productivityScore := 90,
           moodScore := 8, stressLevel := 4, gender := "Female", age := 40 }] 5 "male" =
      Except.error (404, "No data found for the specified criteria") ∧
    filterByAgeGender
        [{ totalSleepHours := 8, sleepQuality := 7, productivityScore := 80,
           moodScore := 7, stressLevel := 5, gender := "Male", age := 30 },
         { totalSleepHours := 7, sleepQuality := 8, productivityScore := 90,
           moodScore := 8, stressLevel := 4, gender := "Female", age := 40 }] 40 "ALL" =
      List.filter (fun r => decide ((40 : Int) - 5 ≤ r.age) && decide (r.age ≤ 40 + 5))
        [{ totalSleepHours := 8, sleepQuality := 7, productivityScore := 80,
           moodScore := 7, stressLevel := 5, gender := "Male", age := 30 },
         { totalSleepHours := 7, sleepQuality := 8, productivityScore := 90,
           moodScore := 8, stressLevel := 4, gender := "Female", age := 40 }] :=
  ⟨claim_C7.2.2.2.1 _ 5 "male" (by decide),
   claim_C7.2.2.1 _ 40 "ALL" (by decide)⟩
